import Mathlib

/-!
Verification of `function/main.py` (slack-delete-cloud): a shallow embedding of
the cleanup handler's pure logic. Network responses are supplied by oracles,
wall-clock time and timestamps are passed in as parameters, and printing is
ignored. Python integers are `Int`/`Nat`; Python dicts backing query strings
and JSON bodies are association lists; fallible conversions return `Option`.
-/

/-- A value appearing in a query string, a JSON body, or as a default:
query-string values are strings, JSON values and the hard-coded defaults may
be integers. Mirrors the dynamically typed values flowing through `main.py`. -/
inductive PyVal where
  | str (s : String)
  | int (n : Int)
deriving DecidableEq, Repr

/-- Model of Python `int(str)` restricted to the base-10 literals that occur
here: an optional sign followed by a nonempty digit run; anything else raises
`ValueError`, modelled as `none`. Accumulator for the digit run. -/
def parseDigitsAux : List Char → Nat → Option Nat
  | [], acc => some acc
  | c :: cs, acc =>
    if c.isDigit then parseDigitsAux cs (acc * 10 + (c.toNat - 48)) else none

/-- Model of Python `int()` applied to a string. -/
def pyInt (s : String) : Option Int :=
  match s.data with
  | [] => none
  | '-' :: cs =>
    match cs with
    | [] => none
    | _ => (parseDigitsAux cs 0).map (fun n => -(n : Int))
  | '+' :: cs =>
    match cs with
    | [] => none
    | _ => (parseDigitsAux cs 0).map (fun n => (n : Int))
  | cs => (parseDigitsAux cs 0).map (fun n => (n : Int))

/-- Model of Python `int()` applied to a request-parameter value. -/
def pyIntOf : PyVal → Option Int
  | .int n => some n
  | .str s => pyInt s

/-- The incoming flask request as `check_arg` sees it: `request.args` (query
string, always string-valued) and `request.get_json()` (absent → `none`). -/
structure HttpRequest where
  args : List (String × PyVal)
  json : Option (List (String × PyVal))

/-- `check_arg(arg_name, request, default_value)` from `main.py`:
query-string value if the name is in a non-empty `request.args`, else the
JSON-body value if the name is in a truthy parsed body, else the default. -/
def check_arg (argName : String) (request : HttpRequest) (defaultValue : PyVal) : PyVal :=
  if request.args ≠ [] ∧ (request.args.lookup argName).isSome then
    (request.args.lookup argName).getD defaultValue
  else
    match request.json with
    | some json =>
      if json ≠ [] ∧ (json.lookup argName).isSome then
        (json.lookup argName).getD defaultValue
      else defaultValue
    | none => defaultValue

/-- `days_count = check_arg('days', request, 30)` from `main`. -/
def days_count (request : HttpRequest) : PyVal := check_arg "days" request (.int 30)

/-- `files_count = check_arg('count', request, 1000)` from `main`. -/
def files_count (request : HttpRequest) : PyVal := check_arg "count" request (.int 1000)

/-- `dry_run = check_arg('just_a_test', request, 1)` from `main`. -/
def dry_run (request : HttpRequest) : PyVal := check_arg "just_a_test" request (.int 1)

/-- `calculate_days(days)` from `main.py`: `int(time()) - int(days)*24*60*60`,
with the wall clock passed in as `now`; `none` when `int(days)` raises. -/
def calculate_days (now : Int) (days : PyVal) : Option Int :=
  (pyIntOf days).map (fun d => now - d * 24 * 60 * 60)

/-- The module-level `mimetypes` constant. In the source it is written
`('document')` with every other entry commented out; without a trailing comma
this parenthesised expression is the STRING `'document'`, not a one-element
tuple. -/
def mimetypes : String := "document"

/-- The filter test of `list_files`:
`any([mimetype in f['mimetype'] for mimetype in mimetypes])`. Since
`mimetypes` is a string, iterating it yields its characters, and
`mimetype in f['mimetype']` is a one-character substring test. -/
def keepFile (mt : String) : Bool :=
  mimetypes.data.any (fun c => mt.data.contains c)

/-- A file record as reshaped by `list_files` (and as consumed by
`delete_files`). The `timestamp` string is the strftime-formatted local time;
its formatting is locale/clock dependent and treated as given data here. -/
structure SlackFile where
  id : String
  name : String
  timestamp : String
  mimetype : String
  size : Nat
deriving DecidableEq, Repr

/-- `list_files(token, days, count)` from `main.py`, with the listing
endpoint's decoded `files` array passed in as `resp`. Building the request
params evaluates `int(count)` and `calculate_days(days)`; if either raises the
call fails (`none`). Otherwise the result keeps exactly the entries passing
the mimetype filter (the per-entry reshape preserves id, name, mimetype and
size and formats the numeric timestamp). -/
def list_files (count : PyVal) (days : PyVal) (now : Int) (resp : List SlackFile) :
    Option (List SlackFile) :=
  match pyIntOf count, calculate_days now days with
  | some _, some _ => some (resp.filter (fun f => keepFile f.mimetype))
  | _, _ => none

/-- One character of `return_value.replace('\n', '<br><br>')`:
each newline becomes `<br><br>`, every other character is kept. -/
def replaceNL : List Char → List Char
  | [] => []
  | c :: cs => (if c = '\n' then "<br><br>".data else [c]) ++ replaceNL cs

/-- `s.replace('\n', '<br><br>')` from the tail of `delete_files` (the
pattern is the single character `'\n'`). -/
def replaceNewlines (s : String) : String := ⟨replaceNL s.data⟩

/-- `MBFACTOR = float(1<<20)` — bytes per MB. -/
def MBFACTOR : Nat := 1 <<< 20

/-- `bytes / MBFACTOR` in hundredths of a MB, rounded half-to-even — the
value that Python's `format(bytes/MBFACTOR, '.2f')` renders. Exact for sizes
below 2^53 bytes, where the float division by a power of two is exact. -/
def mbHundredths (bytes : Nat) : Nat :=
  let n := bytes * 100
  let q := n / MBFACTOR
  let r := n % MBFACTOR
  if r > MBFACTOR / 2 then q + 1
  else if r < MBFACTOR / 2 then q
  else if q % 2 = 0 then q else q + 1

/-- Render a number of hundredths as a fixed-point string with two decimals. -/
def formatHundredths (h : Nat) : String :=
  toString (h / 100) ++ "." ++ (if h % 100 < 10 then "0" else "") ++ toString (h % 100)

/-- `format(bytes/MBFACTOR, '.2f')` as used in the reports of `main.py`. -/
def formatMB (bytes : Nat) : String := formatHundredths (mbHundredths bytes)

/-- The outcome the deletion endpoint produces for one call:
a decoded JSON response `{ok, error}`, or an exception raised by the
`get`/`loads`/key access (transport error, malformed JSON, ...). -/
inductive DeleteOutcome where
  | resp (ok : Bool) (error : String)
  | exn (msg : String)
deriving DecidableEq, Repr

/-- Mutable locals of the `delete_files` loop, plus the number of requests
issued to the delete endpoint and the exception caught, if any. -/
structure LoopState where
  count : Nat
  deleted_size : Nat
  calls : Nat
  err : Option String
deriving DecidableEq, Repr

/-- The `for f in files` loop of `delete_files`. Each iteration increments
`count` and `deleted_size` BEFORE the network call; the call's outcome comes
from `oracle` indexed by the running call number. A normal response only
affects logging (whether `ok` or not); an exception aborts the loop and is
recorded for the `except` clause. -/
def deleteLoop (oracle : Nat → DeleteOutcome) : List SlackFile → LoopState → LoopState
  | [], st => st
  | f :: fs, st =>
    let st1 : LoopState :=
      { count := st.count + 1, deleted_size := st.deleted_size + f.size,
        calls := st.calls + 1, err := st.err }
    match oracle st.calls with
    | .resp _ _ => deleteLoop oracle fs st1
    | .exn msg => { st1 with err := some msg }

/-- `dry_run_message` from `delete_files`. -/
def dry_run_message : String := "[i] DRY RUN, NO FILES DELETED\n"

/-- The text of the `ValueError` raised by `int()` on a bad literal,
as it is stringified into the report by the `except` clause. -/
def intErrorMessage : PyVal → String
  | .str s => "invalid literal for int() with base 10: " ++ s
  | .int n => "invalid literal for int() with base 10: " ++ toString n

/-- The line appended in the `finally` clause of `delete_files`. -/
def summaryLine (ts : String) (fsize amount count deleted_size : Nat) : String :=
  "[i] " ++ ts ++ " Attempted to delete " ++ formatMB fsize ++ " MB in " ++
    toString amount ++ " files, actually deleted " ++ toString count ++
    " files sized " ++ formatMB deleted_size ++ " MB"

/-- What `delete_files` produces: the returned report string plus the
observable counters (number of delete requests issued, final `count` and
`deleted_size`). -/
structure DeleteResult where
  report : String
  deleteCalls : Nat
  count : Nat
  deleted_size : Nat
deriving DecidableEq, Repr

/-- `delete_files(token, files, view_only, fsize, amount)` from `main.py`,
with the per-call outcomes of the delete endpoint in `oracle` and
`current_timestamp()` passed in as `ts`. Python control flow modelled
faithfully: `int(view_only)` raising is caught by the `except` clause; the
dry-run branch's bare `return` is overridden by the `return` in `finally`,
which always appends the summary line and newline-replaces the accumulator. -/
def delete_files (token : String) (files : List SlackFile) (view_only : PyVal)
    (fsize amount : Nat) (oracle : Nat → DeleteOutcome) (ts : String) : DeleteResult :=
  match pyIntOf view_only with
  | none =>
    { report := replaceNewlines (("" ++ "<br><br>" ++ intErrorMessage view_only ++ "<br><br>") ++
        summaryLine ts fsize amount 0 0),
      deleteCalls := 0, count := 0, deleted_size := 0 }
  | some n =>
    if n = 1 then
      { report := replaceNewlines (("" ++ dry_run_message) ++ summaryLine ts fsize amount 0 0),
        deleteCalls := 0, count := 0, deleted_size := 0 }
    else
      let st := deleteLoop oracle files { count := 0, deleted_size := 0, calls := 0, err := none }
      { report := replaceNewlines
          ((match st.err with
            | none => ""
            | some m => "" ++ "<br><br>" ++ m ++ "<br><br>") ++
           summaryLine ts fsize amount st.count st.deleted_size),
        deleteCalls := st.calls, count := st.count, deleted_size := st.deleted_size }

/-- Substring test following the SPEC's words for the mimetype filter
(`startsWithList pat s` : `s` starts with `pat`). Used only to compare the
spec's description of the filter with the code's actual behaviour. -/
def startsWithList : List Char → List Char → Bool
  | [], _ => true
  | _ :: _, [] => false
  | a :: as, b :: bs => a = b && startsWithList as bs

/-- `hasSubList pat s` : `pat` occurs as a contiguous substring of `s`. -/
def hasSubList (pat : List Char) : List Char → Bool
  | [] => startsWithList pat []
  | c :: rest => startsWithList pat (c :: rest) || hasSubList pat rest

/-- The filter as the SPEC states it: keep iff the mimetype contains the
substring "document". -/
def keepFileSpec (mt : String) : Bool := hasSubList "document".data mt.data

/-- Sample file records used to instantiate theorems at concrete inputs. -/
def fileA : SlackFile :=
  { id := "F1", name := "a.txt", timestamp := "2024-01-01 00:00:00",
    mimetype := "text/plain", size := 5 }

def fileB : SlackFile :=
  { id := "F2", name := "b.txt", timestamp := "2024-01-01 00:00:00",
    mimetype := "text/plain", size := 7 }

def fileC : SlackFile :=
  { id := "F3", name := "c.txt", timestamp := "2024-01-01 00:00:00",
    mimetype := "text/plain", size := 9 }

def fileImg : SlackFile :=
  { id := "F4", name := "cat.png", timestamp := "2024-01-01 00:00:00",
    mimetype := "image/png", size := 12345 }

/-! ## Helper lemmas -/

lemma string_data_append (a b : String) : (a ++ b).data = a.data ++ b.data := rfl

lemma replaceNL_append (a b : List Char) :
    replaceNL (a ++ b) = replaceNL a ++ replaceNL b := by
  induction a with
  | nil => simp [replaceNL]
  | cons c cs ih => simp [replaceNL, ih]

lemma replaceNewlines_append (a b : String) :
    replaceNewlines (a ++ b) = replaceNewlines a ++ replaceNewlines b := by
  show (⟨replaceNL (a ++ b).data⟩ : String) = ⟨replaceNL a.data ++ replaceNL b.data⟩
  rw [string_data_append, replaceNL_append]

lemma replaceNL_no_newline (l : List Char) : '\n' ∉ replaceNL l := by
  induction l with
  | nil => simp [replaceNL]
  | cons c cs ih =>
    intro hmem
    simp only [replaceNL, List.mem_append] at hmem
    rcases hmem with h | h
    · by_cases hc : c = '\n'
      · rw [if_pos hc] at h
        revert h
        decide
      · rw [if_neg hc] at h
        simp only [List.mem_singleton] at h
        exact hc h.symm
    · exact ih h

lemma replaceNL_ne_nil (c : Char) (l : List Char) : replaceNL (c :: l) ≠ [] := by
  by_cases hc : c = '\n' <;> simp [replaceNL, hc]

lemma replaceNewlines_ne_empty (s : String) (h : s.data ≠ []) :
    replaceNewlines s ≠ "" := by
  intro he
  have hd : (replaceNewlines s).data = ("" : String).data := by rw [he]
  cases hs : s.data with
  | nil => exact h hs
  | cons c l =>
    apply replaceNL_ne_nil c l
    have : (replaceNewlines s).data = replaceNL s.data := rfl
    rw [this, hs] at hd
    exact hd

lemma deleteLoop_all_resp (oracle : Nat → DeleteOutcome) (fs : List SlackFile)
    (st : LoopState)
    (h : ∀ i, i < fs.length → ∃ ok err, oracle (st.calls + i) = DeleteOutcome.resp ok err) :
    deleteLoop oracle fs st =
      { count := st.count + fs.length,
        deleted_size := st.deleted_size + (fs.map (fun f => f.size)).sum,
        calls := st.calls + fs.length, err := st.err } := by
  induction fs generalizing st with
  | nil => simp [deleteLoop]
  | cons f fs ih =>
    obtain ⟨ok, err, hor⟩ := h 0 (by simp)
    rw [Nat.add_zero] at hor
    have hstep : deleteLoop oracle (f :: fs) st =
        deleteLoop oracle fs
          { count := st.count + 1, deleted_size := st.deleted_size + f.size,
            calls := st.calls + 1, err := st.err } := by
      simp [deleteLoop, hor]
    rw [hstep, ih]
    · simp only [LoopState.mk.injEq, List.length_cons, List.map_cons, List.sum_cons]
      refine ⟨by omega, by omega, by omega, trivial⟩
    · intro i hi
      obtain ⟨ok2, err2, h2⟩ := h (i + 1) (by simpa using Nat.succ_lt_succ hi)
      exact ⟨ok2, err2, by rw [show st.calls + 1 + i = st.calls + (i + 1) by omega]; exact h2⟩

lemma deleteLoop_exn (oracle : Nat → DeleteOutcome) (fs1 : List SlackFile)
    (f : SlackFile) (fs2 : List SlackFile) (st : LoopState) (msg : String)
    (h1 : ∀ i, i < fs1.length → ∃ ok err, oracle (st.calls + i) = DeleteOutcome.resp ok err)
    (h2 : oracle (st.calls + fs1.length) = DeleteOutcome.exn msg) :
    deleteLoop oracle (fs1 ++ f :: fs2) st =
      { count := st.count + fs1.length + 1,
        deleted_size := st.deleted_size + (fs1.map (fun x => x.size)).sum + f.size,
        calls := st.calls + fs1.length + 1, err := some msg } := by
  induction fs1 generalizing st with
  | nil =>
    simp only [List.length_nil, Nat.add_zero] at h2
    simp [deleteLoop, h2]
  | cons a fs1 ih =>
    obtain ⟨ok, err, hor⟩ := h1 0 (by simp)
    rw [Nat.add_zero] at hor
    have hstep : deleteLoop oracle ((a :: fs1) ++ f :: fs2) st =
        deleteLoop oracle (fs1 ++ f :: fs2)
          { count := st.count + 1, deleted_size := st.deleted_size + a.size,
            calls := st.calls + 1, err := st.err } := by
      simp [deleteLoop, hor]
    rw [hstep, ih]
    · simp only [LoopState.mk.injEq, List.length_cons, List.map_cons, List.sum_cons]
      refine ⟨by omega, by omega, by omega, trivial⟩
    · intro i hi
      obtain ⟨ok2, err2, hr⟩ := h1 (i + 1) (by simpa using Nat.succ_lt_succ hi)
      exact ⟨ok2, err2, by rw [show st.calls + 1 + i = st.calls + (i + 1) by omega]; exact hr⟩
    · rw [show st.calls + 1 + fs1.length = st.calls + (fs1.length + 1) by omega]
      simpa using h2

lemma deleteLoop_le (oracle : Nat → DeleteOutcome) (fs : List SlackFile) (st : LoopState) :
    (deleteLoop oracle fs st).count ≤ st.count + fs.length ∧
    (deleteLoop oracle fs st).deleted_size ≤ st.deleted_size + (fs.map (fun f => f.size)).sum := by
  induction fs generalizing st with
  | nil => simp [deleteLoop]
  | cons f fs ih =>
    simp only [deleteLoop, List.length_cons, List.map_cons, List.sum_cons]
    cases hor : oracle st.calls with
    | resp ok err =>
      have h1 : (deleteLoop oracle fs
          { count := st.count + 1, deleted_size := st.deleted_size + f.size,
            calls := st.calls + 1, err := st.err }).count ≤ st.count + 1 + fs.length :=
        (ih _).1
      have h2 : (deleteLoop oracle fs
          { count := st.count + 1, deleted_size := st.deleted_size + f.size,
            calls := st.calls + 1, err := st.err }).deleted_size ≤
          st.deleted_size + f.size + (fs.map (fun f => f.size)).sum :=
        (ih _).2
      exact ⟨h1.trans (by omega), h2.trans (by omega)⟩
    | exn msg => exact ⟨by simp, by simp⟩

lemma filter_length_le_sfile (p : SlackFile → Bool) (l : List SlackFile) :
    (l.filter p).length ≤ l.length :=
  List.length_filter_le p l

lemma filter_sum_le_sfile (p : SlackFile → Bool) (l : List SlackFile) :
    ((l.filter p).map (fun f => f.size)).sum ≤ (l.map (fun f => f.size)).sum := by
  induction l with
  | nil => simp
  | cons a l ih =>
    by_cases h : p a <;> simp [List.filter_cons, h] <;> omega

lemma replaceNewlines_no_newline (s : String) : '\n' ∉ (replaceNewlines s).data :=
  replaceNL_no_newline s.data

lemma append_data_ne_nil_left (a b : String) (ha : a.data ≠ []) : (a ++ b).data ≠ [] := by
  rw [string_data_append]
  intro h
  exact ha (List.append_eq_nil.mp h).1

/-! ## Claim theorems -/

/-- Claim C1, counterexample: the claim says the report returned for every
dry-run invocation is empty; at a concrete dry-run invocation the report is
not the empty string (the `return` in `finally` supersedes the bare `return`
of the dry-run branch). -/
theorem dry_run_report_nonempty_example :
    (delete_files "tok" [] (PyVal.int 1) 0 0 (fun _ => DeleteOutcome.resp true "")
      "2024-01-01 00:00:00").report ≠ "" := by decide

/-- Claim C1, amended: when the dry-run flag converts to the integer 1, the
dry-run branch appends the "no files deleted" message and its bare `return`
is overridden by the `return` in the `finally` clause, so the returned report
is the dry-run message followed by the final summary line (newline-replaced),
is not empty, and no delete call is made. -/
theorem dry_run_report_contents
    (token : String) (files : List SlackFile) (view_only : PyVal)
    (fsize amount : Nat) (oracle : Nat → DeleteOutcome) (ts : String)
    (hv : pyIntOf view_only = some 1) :
    (delete_files token files view_only fsize amount oracle ts).report =
      replaceNewlines (("" ++ dry_run_message) ++ summaryLine ts fsize amount 0 0) ∧
    (delete_files token files view_only fsize amount oracle ts).report ≠ "" ∧
    (delete_files token files view_only fsize amount oracle ts).deleteCalls = 0 := by
  refine ⟨by simp [delete_files, hv], ?_, by simp [delete_files, hv]⟩
  have hrep : (delete_files token files view_only fsize amount oracle ts).report =
      replaceNewlines (("" ++ dry_run_message) ++ summaryLine ts fsize amount 0 0) := by
    simp [delete_files, hv]
  rw [hrep]
  apply replaceNewlines_ne_empty
  apply append_data_ne_nil_left
  decide

/-- Claim C1, witness for the amended theorem at a concrete dry-run request. -/
theorem dry_run_report_contents_inst :
    (delete_files "tok" [] (PyVal.str "1") 0 0 (fun _ => DeleteOutcome.resp true "")
        "T").report =
      replaceNewlines (("" ++ dry_run_message) ++ summaryLine "T" 0 0 0 0) ∧
    (delete_files "tok" [] (PyVal.str "1") 0 0 (fun _ => DeleteOutcome.resp true "")
        "T").report ≠ "" ∧
    (delete_files "tok" [] (PyVal.str "1") 0 0 (fun _ => DeleteOutcome.resp true "")
        "T").deleteCalls = 0 :=
  dry_run_report_contents "tok" [] (PyVal.str "1") 0 0
    (fun _ => DeleteOutcome.resp true "") "T" (by decide)

/-- Claim C2: the claim says the filter keeps a file iff its mimetype contains
the substring "document", and that image files are always excluded. Because
`mimetypes` in the source is the STRING `'document'` (missing tuple comma),
the code's filter keeps `"image/png"` — it contains single characters of
"document" — although `"image/png"` does not contain the substring
"document". Evaluation of the code at the failing input. -/
theorem mimetype_filter_keeps_image_example :
    list_files (PyVal.int 1000) (PyVal.int 30) 0
        [{ id := "F1", name := "cat.png", timestamp := "2024-01-01 00:00:00",
           mimetype := "image/png", size := 12345 }] =
      some [{ id := "F1", name := "cat.png", timestamp := "2024-01-01 00:00:00",
              mimetype := "image/png", size := 12345 }] ∧
    keepFile "image/png" = true ∧ keepFileSpec "image/png" = false :=
  ⟨by decide, by decide, by decide⟩

/-- Claim C4: whenever the dry-run flag converts to the integer 1, no request
is issued to the delete endpoint, for any list of candidate files. -/
theorem dry_run_makes_no_delete_calls
    (token : String) (files : List SlackFile) (view_only : PyVal)
    (fsize amount : Nat) (oracle : Nat → DeleteOutcome) (ts : String)
    (hv : pyIntOf view_only = some 1) :
    (delete_files token files view_only fsize amount oracle ts).deleteCalls = 0 := by
  simp [delete_files, hv]

/-- Claim C4, witness: a dry-run invocation (flag the string "1") with one
candidate file issues zero delete requests. -/
theorem dry_run_makes_no_delete_calls_inst :
    (delete_files "tok"
        [{ id := "F1", name := "a.txt", timestamp := "2024-01-01 00:00:00",
           mimetype := "text/plain", size := 5 }]
        (PyVal.str "1") 5 1 (fun _ => DeleteOutcome.resp true "") "T").deleteCalls = 0 :=
  dry_run_makes_no_delete_calls "tok"
    [{ id := "F1", name := "a.txt", timestamp := "2024-01-01 00:00:00",
       mimetype := "text/plain", size := 5 }]
    (PyVal.str "1") 5 1 (fun _ => DeleteOutcome.resp true "") "T" (by decide)


/-- Claim C3: with dry-run off, `count` and `deleted_size` are incremented on
every loop iteration before the success check, so when every delete call gets
a decoded response the final tally equals the number of files and the sum of
their sizes, regardless of which responses reported `ok = true`. -/
theorem counters_increment_regardless_of_ok
    (token : String) (files : List SlackFile) (view_only : PyVal) (n : Int)
    (fsize amount : Nat) (oracle : Nat → DeleteOutcome) (ts : String)
    (hv : pyIntOf view_only = some n) (hn : n ≠ 1)
    (hresp : ∀ i, ∃ ok err, oracle i = DeleteOutcome.resp ok err) :
    (delete_files token files view_only fsize amount oracle ts).count = files.length ∧
    (delete_files token files view_only fsize amount oracle ts).deleted_size =
      (files.map (fun f => f.size)).sum := by
  have hloop := deleteLoop_all_resp oracle files
      { count := 0, deleted_size := 0, calls := 0, err := none }
      (fun i _ => by simpa using hresp i)
  simp [delete_files, hv, hn, hloop]

/-- Claim C3, witness: two files where the first delete reports
`ok = false`; the tally still counts both files and both sizes. -/
theorem counters_increment_regardless_of_ok_inst :
    (delete_files "tok" [fileA, fileB] (PyVal.int 0) 12 2
        (fun i => if i = 0 then DeleteOutcome.resp false "cant_delete_file"
                  else DeleteOutcome.resp true "") "T").count = [fileA, fileB].length ∧
    (delete_files "tok" [fileA, fileB] (PyVal.int 0) 12 2
        (fun i => if i = 0 then DeleteOutcome.resp false "cant_delete_file"
                  else DeleteOutcome.resp true "") "T").deleted_size =
      ([fileA, fileB].map (fun f => f.size)).sum :=
  counters_increment_regardless_of_ok "tok" [fileA, fileB] (PyVal.int 0) 0 12 2
    (fun i => if i = 0 then DeleteOutcome.resp false "cant_delete_file"
              else DeleteOutcome.resp true "") "T" rfl (by decide)
    (fun i => by by_cases h : i = 0 <;> simp [h])

/-- Claim C10: the dry-run test is exactly integer-conversion equality to 1.
If `int(view_only) = 1` (including the string "1") the loop is skipped and no
delete request is issued; if `int(view_only) ≠ 1` (including 0, 2 and negative
integers) and every call gets a decoded response, the delete endpoint is
called once per candidate file. -/
theorem dry_run_test_is_int_eq_one
    (token : String) (files : List SlackFile) (view_only : PyVal) (n : Int)
    (fsize amount : Nat) (oracle : Nat → DeleteOutcome) (ts : String)
    (hv : pyIntOf view_only = some n)
    (hresp : ∀ i, ∃ ok err, oracle i = DeleteOutcome.resp ok err) :
    (n = 1 → (delete_files token files view_only fsize amount oracle ts).deleteCalls = 0) ∧
    (n ≠ 1 → (delete_files token files view_only fsize amount oracle ts).deleteCalls =
      files.length) := by
  constructor
  · intro h1
    subst h1
    simp [delete_files, hv]
  · intro hn
    have hloop := deleteLoop_all_resp oracle files
        { count := 0, deleted_size := 0, calls := 0, err := none }
        (fun i _ => by simpa using hresp i)
    simp [delete_files, hv, hn, hloop]

/-- Claim C10, witness: flag "1" issues zero delete requests; flag 0 issues
one request per candidate file. -/
theorem dry_run_test_is_int_eq_one_inst :
    (delete_files "tok" [fileA] (PyVal.str "1") 5 1
        (fun _ => DeleteOutcome.resp true "") "T").deleteCalls = 0 ∧
    (delete_files "tok" [fileA] (PyVal.int 0) 5 1
        (fun _ => DeleteOutcome.resp true "") "T").deleteCalls = [fileA].length :=
  ⟨(dry_run_test_is_int_eq_one "tok" [fileA] (PyVal.str "1") 1 5 1
      (fun _ => DeleteOutcome.resp true "") "T" (by decide)
      (fun _ => ⟨true, "", rfl⟩)).1 rfl,
   (dry_run_test_is_int_eq_one "tok" [fileA] (PyVal.int 0) 0 5 1
      (fun _ => DeleteOutcome.resp true "") "T" rfl
      (fun _ => ⟨true, "", rfl⟩)).2 (by decide)⟩

/-- Claim C5: with dry-run off, if the delete call for the (k+1)-st file
raises, the exception is caught at the batch level, its text is wrapped into
the report, the remaining files are not processed (exactly k+1 requests were
issued), and the report still carries the final summary line built from the
counters accumulated through that iteration. -/
theorem exception_mid_loop_report
    (token : String) (fs1 : List SlackFile) (f : SlackFile) (fs2 : List SlackFile)
    (view_only : PyVal) (n : Int) (fsize amount : Nat)
    (oracle : Nat → DeleteOutcome) (ts msg : String)
    (hv : pyIntOf view_only = some n) (hn : n ≠ 1)
    (h1 : ∀ i, i < fs1.length → ∃ ok err, oracle i = DeleteOutcome.resp ok err)
    (h2 : oracle fs1.length = DeleteOutcome.exn msg) :
    (delete_files token (fs1 ++ f :: fs2) view_only fsize amount oracle ts).count =
      fs1.length + 1 ∧
    (delete_files token (fs1 ++ f :: fs2) view_only fsize amount oracle ts).deleted_size =
      (fs1.map (fun x => x.size)).sum + f.size ∧
    (delete_files token (fs1 ++ f :: fs2) view_only fsize amount oracle ts).deleteCalls =
      fs1.length + 1 ∧
    (delete_files token (fs1 ++ f :: fs2) view_only fsize amount oracle ts).report =
      replaceNewlines (("" ++ "<br><br>" ++ msg ++ "<br><br>") ++
        summaryLine ts fsize amount (fs1.length + 1)
          ((fs1.map (fun x => x.size)).sum + f.size)) := by
  have hloop := deleteLoop_exn oracle fs1 f fs2
      { count := 0, deleted_size := 0, calls := 0, err := none } msg
      (fun i hi => by simpa using h1 i hi) (by simpa using h2)
  simp [delete_files, hv, hn, hloop]

/-- Claim C5, witness: three files, the second delete call raises a transport
error; the batch stops after two requests and the report carries the error
text and the summary built from two files' counters. -/
theorem exception_mid_loop_report_inst :
    (delete_files "tok" ([fileA] ++ fileB :: [fileC]) (PyVal.int 0) 21 3
        (fun i => if i = 1 then DeleteOutcome.exn "Connection aborted"
                  else DeleteOutcome.resp true "") "T").count = [fileA].length + 1 ∧
    (delete_files "tok" ([fileA] ++ fileB :: [fileC]) (PyVal.int 0) 21 3
        (fun i => if i = 1 then DeleteOutcome.exn "Connection aborted"
                  else DeleteOutcome.resp true "") "T").deleted_size =
      ([fileA].map (fun x => x.size)).sum + fileB.size ∧
    (delete_files "tok" ([fileA] ++ fileB :: [fileC]) (PyVal.int 0) 21 3
        (fun i => if i = 1 then DeleteOutcome.exn "Connection aborted"
                  else DeleteOutcome.resp true "") "T").deleteCalls = [fileA].length + 1 ∧
    (delete_files "tok" ([fileA] ++ fileB :: [fileC]) (PyVal.int 0) 21 3
        (fun i => if i = 1 then DeleteOutcome.exn "Connection aborted"
                  else DeleteOutcome.resp true "") "T").report =
      replaceNewlines (("" ++ "<br><br>" ++ "Connection aborted" ++ "<br><br>") ++
        summaryLine "T" 21 3 ([fileA].length + 1)
          (([fileA].map (fun x => x.size)).sum + fileB.size)) :=
  exception_mid_loop_report "tok" [fileA] fileB [fileC] (PyVal.int 0) 0 21 3
    (fun i => if i = 1 then DeleteOutcome.exn "Connection aborted"
              else DeleteOutcome.resp true "") "T" "Connection aborted"
    rfl (by decide)
    (fun i hi => ⟨true, "", by
      have h0 : i = 0 := by simpa using hi
      simp [h0]⟩)
    (by decide)

/-- Claim C6: for every input — any file list, any dry-run value (including
one whose integer conversion raises), any delete outcomes — the report string
returned by `delete_files` ends with the formatted summary line (attempted
size/count versus actually-deleted count/size, newline-replaced like the rest
of the report), and the returned report contains no newline character: every
`'\n'` was replaced by the HTML break sequence before returning. -/
theorem report_ends_with_summary_and_no_newlines
    (token : String) (files : List SlackFile) (view_only : PyVal)
    (fsize amount : Nat) (oracle : Nat → DeleteOutcome) (ts : String) :
    ∃ pre : String,
      (delete_files token files view_only fsize amount oracle ts).report =
        replaceNewlines pre ++
          replaceNewlines (summaryLine ts fsize amount
            (delete_files token files view_only fsize amount oracle ts).count
            (delete_files token files view_only fsize amount oracle ts).deleted_size) ∧
      '\n' ∉ (delete_files token files view_only fsize amount oracle ts).report.data := by
  cases hv : pyIntOf view_only with
  | none =>
    refine ⟨"" ++ "<br><br>" ++ intErrorMessage view_only ++ "<br><br>", ?_, ?_⟩
    · simp [delete_files, hv, replaceNewlines_append]
    · simp only [delete_files, hv]
      exact replaceNewlines_no_newline _
  | some n =>
    by_cases hn : n = 1
    · subst hn
      refine ⟨"" ++ dry_run_message, ?_, ?_⟩
      · simp [delete_files, hv, replaceNewlines_append]
      · have hrep : (delete_files token files view_only fsize amount oracle ts).report =
            replaceNewlines (("" ++ dry_run_message) ++ summaryLine ts fsize amount 0 0) := by
          simp [delete_files, hv]
        rw [hrep]
        exact replaceNewlines_no_newline _
    · refine ⟨(match (deleteLoop oracle files
          { count := 0, deleted_size := 0, calls := 0, err := none }).err with
          | none => ""
          | some m => "" ++ "<br><br>" ++ m ++ "<br><br>"), ?_, ?_⟩
      · simp [delete_files, hv, hn, replaceNewlines_append]
      · have hrep : (delete_files token files view_only fsize amount oracle ts).report =
            replaceNewlines ((match (deleteLoop oracle files
                { count := 0, deleted_size := 0, calls := 0, err := none }).err with
              | none => ""
              | some m => "" ++ "<br><br>" ++ m ++ "<br><br>") ++
              summaryLine ts fsize amount
                (deleteLoop oracle files
                  { count := 0, deleted_size := 0, calls := 0, err := none }).count
                (deleteLoop oracle files
                  { count := 0, deleted_size := 0, calls := 0, err := none }).deleted_size) := by
          simp [delete_files, hv, hn]
        rw [hrep]
        exact replaceNewlines_no_newline _

/-- Claim C7: parameter resolution by `check_arg` returns the query-string
value when the name is present in the query string, otherwise the JSON-body
value when present there, otherwise the default; and `main` resolves `days`,
`count` and `just_a_test` exactly this way with defaults 30, 1000 and 1. -/
theorem check_arg_precedence (req : HttpRequest) (name : String) (dflt v : PyVal) :
    (req.args.lookup name = some v → check_arg name req dflt = v) ∧
    (req.args.lookup name = none → ∀ j, req.json = some j → j.lookup name = some v →
      check_arg name req dflt = v) ∧
    (req.args.lookup name = none → req.json.bind (fun j => j.lookup name) = none →
      check_arg name req dflt = dflt) ∧
    days_count req = check_arg "days" req (PyVal.int 30) ∧
    files_count req = check_arg "count" req (PyVal.int 1000) ∧
    dry_run req = check_arg "just_a_test" req (PyVal.int 1) := by
  refine ⟨?_, ?_, ?_, rfl, rfl, rfl⟩
  · intro h
    have hne : req.args ≠ [] := by
      intro he
      rw [he] at h
      simp [List.lookup] at h
    simp [check_arg, hne, h]
  · intro h j hj hjl
    have hjne : j ≠ [] := by
      intro he
      rw [he] at hjl
      simp [List.lookup] at hjl
    simp [check_arg, h, hj, hjne, hjl]
  · intro h hb
    cases hj : req.json with
    | none => simp [check_arg, h, hj]
    | some j =>
      rw [hj] at hb
      simp only [Option.some_bind] at hb
      simp [check_arg, h, hj, hb]

/-- Claim C7, witness: with the name in the query string the query value wins;
with it only in the JSON body the body value is used; with it in neither the
default is returned. -/
theorem check_arg_precedence_inst :
    check_arg "days" ⟨[("days", PyVal.str "5")], some [("days", PyVal.int 9)]⟩
      (PyVal.int 30) = PyVal.str "5" ∧
    check_arg "count" ⟨[], some [("count", PyVal.int 50)]⟩ (PyVal.int 1000) =
      PyVal.int 50 ∧
    check_arg "just_a_test" ⟨[], none⟩ (PyVal.int 1) = PyVal.int 1 :=
  ⟨(check_arg_precedence ⟨[("days", PyVal.str "5")], some [("days", PyVal.int 9)]⟩
      "days" (PyVal.int 30) (PyVal.str "5")).1 (by decide),
   (check_arg_precedence ⟨[], some [("count", PyVal.int 50)]⟩ "count"
      (PyVal.int 1000) (PyVal.int 50)).2.1 (by decide) [("count", PyVal.int 50)]
      rfl (by decide),
   (check_arg_precedence ⟨[], none⟩ "just_a_test" (PyVal.int 1)
      (PyVal.int 1)).2.2.1 (by decide) (by decide)⟩

/-- Claim C8: parameter resolution performs no type validation. A non-numeric
string supplied for a parameter is returned unchanged by `check_arg`; the
`int()` conversion only fails later — in `calculate_days` (timestamp
computation), in `list_files` (listing-parameter construction, whether the
bad value is `count` or `days`), or in the dry-run check of `delete_files`,
where the `ValueError` is caught by the batch `except` and stringified into
the report without a single delete request being issued. -/
theorem no_type_validation_fails_downstream
    (s : String) (req : HttpRequest) (name : String) (dflt : PyVal) (now : Int)
    (resp : List SlackFile) (token : String) (files : List SlackFile)
    (fsize amount : Nat) (oracle : Nat → DeleteOutcome) (ts : String)
    (hnum : pyInt s = none)
    (hpresent : req.args.lookup name = some (PyVal.str s)) :
    check_arg name req dflt = PyVal.str s ∧
    calculate_days now (PyVal.str s) = none ∧
    list_files (PyVal.str s) (PyVal.int 30) now resp = none ∧
    list_files (PyVal.int 1000) (PyVal.str s) now resp = none ∧
    (delete_files token files (PyVal.str s) fsize amount oracle ts).report =
      replaceNewlines (("" ++ "<br><br>" ++ intErrorMessage (PyVal.str s) ++ "<br><br>") ++
        summaryLine ts fsize amount 0 0) ∧
    (delete_files token files (PyVal.str s) fsize amount oracle ts).deleteCalls = 0 := by
  have hpy : pyIntOf (PyVal.str s) = none := hnum
  refine ⟨?_, ?_, ?_, ?_, ?_, ?_⟩
  · have hne : req.args ≠ [] := by
      intro he
      rw [he] at hpresent
      simp [List.lookup] at hpresent
    simp [check_arg, hne, hpresent]
  · simp [calculate_days, hpy]
  · simp [list_files, hpy]
  · simp [list_files, calculate_days, hpy]
  · simp [delete_files, hpy]
  · simp [delete_files, hpy]

/-- Claim C8, witness: the non-numeric value "abc" for `days` is passed
through unvalidated and every downstream integer conversion fails. -/
theorem no_type_validation_fails_downstream_inst :
    check_arg "days" ⟨[("days", PyVal.str "abc")], none⟩ (PyVal.int 30) =
      PyVal.str "abc" ∧
    calculate_days 0 (PyVal.str "abc") = none ∧
    list_files (PyVal.str "abc") (PyVal.int 30) 0 [] = none ∧
    list_files (PyVal.int 1000) (PyVal.str "abc") 0 [] = none ∧
    (delete_files "tok" [] (PyVal.str "abc") 0 0
        (fun _ => DeleteOutcome.resp true "") "T").report =
      replaceNewlines (("" ++ "<br><br>" ++ intErrorMessage (PyVal.str "abc") ++ "<br><br>") ++
        summaryLine "T" 0 0 0 0) ∧
    (delete_files "tok" [] (PyVal.str "abc") 0 0
        (fun _ => DeleteOutcome.resp true "") "T").deleteCalls = 0 :=
  no_type_validation_fails_downstream "abc" ⟨[("days", PyVal.str "abc")], none⟩
    "days" (PyVal.int 30) 0 [] "tok" [] 0 0 (fun _ => DeleteOutcome.resp true "") "T"
    (by decide) (by decide)

/-- Claim C9: the filtered file list returned by `list_files` never exceeds
the listing response in count or total size, and the deletion counters of
`delete_files` never exceed the candidate set's count or total size, for any
dry-run value and any delete outcomes. -/
theorem filter_and_counter_bounds
    (count days : PyVal) (now : Int) (resp : List SlackFile) (token : String)
    (files : List SlackFile) (view_only : PyVal) (fsize amount : Nat)
    (oracle : Nat → DeleteOutcome) (ts : String) :
    (∀ kept, list_files count days now resp = some kept →
      kept.length ≤ resp.length ∧
      (kept.map (fun f => f.size)).sum ≤ (resp.map (fun f => f.size)).sum) ∧
    (delete_files token files view_only fsize amount oracle ts).count ≤ files.length ∧
    (delete_files token files view_only fsize amount oracle ts).deleted_size ≤
      (files.map (fun f => f.size)).sum := by
  constructor
  · intro kept hk
    have hkeq : kept = resp.filter (fun f => keepFile f.mimetype) := by
      cases hc : pyIntOf count with
      | none => simp [list_files, hc] at hk
      | some c =>
        cases hd : calculate_days now days with
        | none => simp [list_files, hc, hd] at hk
        | some d =>
          simp [list_files, hc, hd] at hk
          exact hk.symm
    subst hkeq
    exact ⟨filter_length_le_sfile _ _, filter_sum_le_sfile _ _⟩
  · cases hv : pyIntOf view_only with
    | none => simp [delete_files, hv]
    | some n =>
      by_cases hn : n = 1
      · subst hn
        simp [delete_files, hv]
      · have hle := deleteLoop_le oracle files
          { count := 0, deleted_size := 0, calls := 0, err := none }
        constructor
        · have h1 : (deleteLoop oracle files
              { count := 0, deleted_size := 0, calls := 0, err := none }).count ≤
              0 + files.length := hle.1
          simpa [delete_files, hv, hn] using h1
        · have h2 : (deleteLoop oracle files
              { count := 0, deleted_size := 0, calls := 0, err := none }).deleted_size ≤
              0 + (files.map (fun f => f.size)).sum := hle.2
          simpa [delete_files, hv, hn] using h2

/-- Claim C9, witness: concrete listing and deletion run realising the
bounds. -/
theorem filter_and_counter_bounds_inst :
    ([fileImg].length ≤ [fileImg].length ∧
      ([fileImg].map (fun f => f.size)).sum ≤ ([fileImg].map (fun f => f.size)).sum) ∧
    (delete_files "tok" [fileImg] (PyVal.int 0) 12345 1
        (fun _ => DeleteOutcome.resp true "") "T").count ≤ [fileImg].length ∧
    (delete_files "tok" [fileImg] (PyVal.int 0) 12345 1
        (fun _ => DeleteOutcome.resp true "") "T").deleted_size ≤
      ([fileImg].map (fun f => f.size)).sum :=
  ⟨(filter_and_counter_bounds (PyVal.int 1000) (PyVal.int 30) 0 [fileImg] "tok"
      [fileImg] (PyVal.int 0) 12345 1 (fun _ => DeleteOutcome.resp true "") "T").1
      [fileImg] (by decide),
   (filter_and_counter_bounds (PyVal.int 1000) (PyVal.int 30) 0 [fileImg] "tok"
      [fileImg] (PyVal.int 0) 12345 1 (fun _ => DeleteOutcome.resp true "") "T").2⟩
